import Mathlib

/-!
Verification of the fs-adjustment reconciliation cleaners.

Shallow embedding of the transaction-matching and balance-reconciliation
logic of the repository's cleaners:

  * `src/adv_payment_cleaner.py`  — `transform_advance_payment`
  * `src/temp_receipt_cleaner.py` — `transform_temp_receipt`
  * `src/or_cleaner.py`           — `transform_other_receivable`
  * `src/ar_cleaner.py`           — `match_sales_receipts`,
    `generate_voucher_numbers_op`, `transform_account_payable`,
    `transform_other_payable`

Amount cells are modelled as rationals (the source's float cells after
`pd.to_numeric(...).fillna(0)` coercion); text cells as strings; dates that
the source parses with `pd.to_datetime(..., errors="coerce")` as
`Option YMD` (`none` = `NaT`).  DataFrames are lists of row structures, in
frame order; positional row indices are made explicit with `List.enum`
where the source keeps a set of used `iterrows` indices.
-/

/-- Round half to even on rationals: the rounding `pandas`/`numpy` `round()`
and Python 3 `round()` apply to the source's numeric cells. -/
def pyRound (q : ℚ) : ℤ :=
  let f : ℤ := q.floor
  let frac : ℚ := q - (f : ℚ)
  if 2 * frac < 1 then f
  else if 1 < 2 * frac then f + 1
  else if f % 2 = 0 then f else f + 1

/-- Zero-pad a natural to two digits, as Python's `{n:02d}` / strftime `%m`. -/
def pad2 (n : Nat) : String :=
  if n < 10 then "0" ++ toString n else toString n

/-- Zero-pad a natural to three digits, as Python's `{n:03d}` / `zfill(3)`. -/
def pad3 (n : Nat) : String :=
  if n < 10 then "00" ++ toString n
  else if n < 100 then "0" ++ toString n
  else toString n

/-- Last two characters of a string, as Python's `s[-2:]`
(used by `generate_voucher_numbers_op` on `str(date.year)`). -/
def last2 (s : String) : String :=
  String.mk (s.data.drop (s.data.length - 2))

/-- Case-insensitive character equality. -/
def lcEq (a b : Char) : Bool := a.toLower == b.toLower

/-- Do four characters spell "paid", case-insensitively? -/
def isPaid4 (p a i d : Char) : Bool :=
  lcEq p 'p' && lcEq a 'a' && lcEq i 'i' && lcEq d 'd'

/-- One left-to-right pass deleting every occurrence of `_paid` or `paid`,
case-insensitively: the effect of `re.sub(r"(_?paid)", "", t, flags=re.IGNORECASE)`
in `clean_trans_no` (src/ar_cleaner.py lines 350-351). -/
def stripPaidChars : List Char → List Char
  | '_' :: p :: a :: i :: d :: rest =>
    if isPaid4 p a i d then stripPaidChars rest
    else '_' :: stripPaidChars (p :: a :: i :: d :: rest)
  | p :: a :: i :: d :: rest =>
    if isPaid4 p a i d then stripPaidChars rest
    else p :: stripPaidChars (a :: i :: d :: rest)
  | c :: rest => c :: stripPaidChars rest
  | [] => []

/-- String form of `stripPaidChars`. -/
def stripPaid (s : String) : String := String.mk (stripPaidChars s.data)

/-- Does the first character list start with the second, comparing
case-insensitively? -/
def startsWithCI : List Char → List Char → Bool
  | _, [] => true
  | [], _ :: _ => false
  | a :: as, b :: bs => lcEq a b && startsWithCI as bs

/-- Case-insensitive substring scan over character lists. -/
def containsCIChars : List Char → List Char → Bool
  | [], pat => pat.isEmpty
  | c :: rest, pat => startsWithCI (c :: rest) pat || containsCIChars rest pat

/-- Case-insensitive substring test: Python's
`str.contains(pat, case=False)` / `"pat" in s.lower()`. -/
def containsCI (s pat : String) : Bool :=
  containsCIChars s.data pat.data

/-- Is a character ASCII whitespace (the characters Python's `str.strip()`
removes from the source's cell values)? -/
def isSpaceChar (c : Char) : Bool :=
  c == ' ' || c == '\t' || c == '\n' || c == '\r'

/-- Python's `str.strip()`: drop leading and trailing whitespace. -/
def pyStrip (s : String) : String :=
  String.mk (((s.data.dropWhile isSpaceChar).reverse.dropWhile isSpaceChar).reverse)

/-- Helper for `splitComma`, accumulating the current piece reversed. -/
def splitCommaChars : List Char → List Char → List (List Char)
  | [], acc => [acc.reverse]
  | c :: rest, acc =>
    if c == ',' then acc.reverse :: splitCommaChars rest []
    else splitCommaChars rest (c :: acc)

/-- Python's `str.split(",")`. -/
def splitComma (s : String) : List String :=
  (splitCommaChars s.data []).map String.mk

/-- Helper for `dedupKeepFirst`, carrying the records seen so far. -/
def dedupKeepFirstAux [DecidableEq α] : List α → List α → List α
  | [], _ => []
  | a :: as, seen =>
    if a ∈ seen then dedupKeepFirstAux as seen
    else a :: dedupKeepFirstAux as (a :: seen)

/-- Drop duplicate records keeping the first occurrence, as pandas
`drop_duplicates()`. -/
def dedupKeepFirst [DecidableEq α] (l : List α) : List α := dedupKeepFirstAux l []

/-- Lexicographic codepoint comparison of character lists: Python's `<`
on strings. -/
def ltCharList : List Char → List Char → Bool
  | [], [] => false
  | [], _ :: _ => true
  | _ :: _, [] => false
  | a :: as, b :: bs =>
    if a < b then true else if b < a then false else ltCharList as bs

/-- Python's `a < b` on strings (codepoint lexicographic order). -/
def strLt (a b : String) : Bool := ltCharList a.data b.data

/-- Insert into an ascending list of strings (codepoint order, as Python
string comparison sorts pandas `groupby` keys). -/
def insertSorted (a : String) : List String → List String
  | [] => [a]
  | b :: bs => if strLt a b then a :: b :: bs else b :: insertSorted a bs

/-- Insertion sort of strings ascending: the sorted group-key order pandas
`groupby(sort=True)` emits. -/
def sortStrings : List String → List String
  | [] => []
  | a :: as => insertSorted a (sortStrings as)

/-- An exception aborting a transform: pandas' `KeyError` naming the
missing columns of a frame access, Python's `NameError` for an unbound
name, or pandas' `ValueError` (raised, e.g., by `pd.concat([])`). -/
inductive PyStop where
  | keyError (cols : List String)
  | nameError (n : String)
  | valueError (msg : String)
deriving DecidableEq, Repr

instance [DecidableEq e] [DecidableEq a] : DecidableEq (Except e a) := fun x y =>
  match x, y with
  | .ok u, .ok v =>
    if h : u = v then .isTrue (h ▸ rfl) else .isFalse fun he => h (Except.ok.inj he)
  | .error u, .error v =>
    if h : u = v then .isTrue (h ▸ rfl) else .isFalse fun he => h (Except.error.inj he)
  | .ok _, .error _ => .isFalse fun he => Except.noConfusion he
  | .error _, .ok _ => .isFalse fun he => Except.noConfusion he

/-- An input ledger row of the debit/credit cleaners
(`adv_payment_cleaner.py`, `temp_receipt_cleaner.py`, `or_cleaner.py`):
columns Date, Trans No, Vendor/Client, Description, Debit, Credit, with the
amount columns already coerced by `pd.to_numeric(...).fillna(0)`. -/
structure Txn where
  date : String
  transNo : String
  vendor : String
  descr : String
  debit : ℚ
  credit : ℚ
deriving DecidableEq, Repr

/-- The shared strict-amount first-available matching loop: for each charge
in order, scan the settlement pool (rows paired with their frame index) for
the first settlement whose index is not in the used set and which satisfies
the match predicate `p`; on a hit the index joins the used set.  This is the
loop of src/adv_payment_cleaner.py lines 18-43, src/temp_receipt_cleaner.py
lines 25-50 and src/or_cleaner.py lines 18-44, with the row construction of
each cleaner factored out. -/
def matchLoop (p : Txn → Txn → Bool) :
    List Txn → List (Nat × Txn) → List Nat → List (Txn × Option (Nat × Txn))
  | [], _, _ => []
  | c :: cs, pool, used =>
    match pool.find? (fun ip => !(decide (ip.1 ∈ used)) && p c ip.2) with
    | some ip => (c, some ip) :: matchLoop p cs pool (ip.1 :: used)
    | none => (c, none) :: matchLoop p cs pool used

/-- Advance-payment match predicate: `adv_amount == pay["Credit"]`
(src/adv_payment_cleaner.py line 28). -/
def advPred (c p : Txn) : Bool := decide (c.debit = p.credit)

/-- The advances (charges) of the advance-payment cleaner:
`df[df["Debit"] > 0]` (src/adv_payment_cleaner.py line 12). -/
def advCharges (df : List Txn) : List Txn :=
  df.filter fun t => decide (0 < t.debit)

/-- The payments (settlements) of the advance-payment cleaner:
`df[df["Credit"] > 0]` (src/adv_payment_cleaner.py line 13). -/
def advSettlements (df : List Txn) : List Txn :=
  df.filter fun t => decide (0 < t.credit)

/-- An output row of `transform_advance_payment`
(src/adv_payment_cleaner.py lines 30-57, 62-72). -/
structure AdvRow where
  date : String
  voucherNo : String
  companyName : String
  description : String
  amount : ℚ
  paymentDate : String
  paymentVoucherNo : String
  paymentAmount : ℚ
  outstanding : ℚ
deriving DecidableEq, Repr

/-- Row construction of the advance-payment loop: the matched row of
src/adv_payment_cleaner.py lines 30-40 and the unmatched row of lines 47-57. -/
def advBuildRow : Txn × Option (Nat × Txn) → AdvRow
  | (adv, some ip) =>
    { date := adv.date, voucherNo := adv.transNo, companyName := adv.vendor,
      description := adv.descr, amount := adv.debit,
      paymentDate := ip.2.date, paymentVoucherNo := ip.2.transNo,
      paymentAmount := ip.2.credit, outstanding := 0 }
  | (adv, none) =>
    { date := adv.date, voucherNo := adv.transNo, companyName := adv.vendor,
      description := adv.descr, amount := adv.debit,
      paymentDate := "", paymentVoucherNo := "", paymentAmount := 0,
      outstanding := adv.debit }

/-- The matched-and-built rows of `transform_advance_payment`, before the
TOTAL row is appended. -/
def advRows (df : List Txn) : List AdvRow :=
  (matchLoop advPred (advCharges df) (advSettlements df).enum []).map advBuildRow

/-- The TOTAL row of `transform_advance_payment`
(src/adv_payment_cleaner.py lines 62-72). -/
def advTotalRow (rows : List AdvRow) : AdvRow :=
  { date := "TOTAL", voucherNo := "", companyName := "", description := "",
    amount := (rows.map (·.amount)).sum,
    paymentDate := "", paymentVoucherNo := "",
    paymentAmount := (rows.map (·.paymentAmount)).sum,
    outstanding := (rows.map (·.outstanding)).sum }

/-- src/adv_payment_cleaner.py `transform_advance_payment` (lines 3-75).
When no advance has Debit > 0, `output_rows` is empty and
`pd.DataFrame([])` has no columns, so the TOTAL-row construction at line
67 raises `KeyError("Amount")` — the run aborts with no output.
Otherwise the report is the charge rows followed by the TOTAL row. -/
def transform_advance_payment (df : List Txn) : Except PyStop (List AdvRow) :=
  if advRows df = [] then .error (.keyError ["Amount"])
  else .ok (advRows df ++ [advTotalRow (advRows df)])

/-- Temporary-receipt match predicate: `pay_df["debit"] == tr_amount`
(src/temp_receipt_cleaner.py line 30). -/
def trPred (c p : Txn) : Bool := decide (p.debit = c.credit)

/-- The temporary receipts (charges): `df[df["credit"] > 0]`
(src/temp_receipt_cleaner.py line 19). -/
def trCharges (df : List Txn) : List Txn :=
  df.filter fun t => decide (0 < t.credit)

/-- The payments (settlements): `df[df["debit"] > 0]`
(src/temp_receipt_cleaner.py line 20). -/
def trSettlements (df : List Txn) : List Txn :=
  df.filter fun t => decide (0 < t.debit)

/-- An output row of `transform_temp_receipt`
(src/temp_receipt_cleaner.py lines 38-63, 68-78). -/
structure TRRow where
  trDate : String
  trVoucher : String
  companyName : String
  trDescription : String
  trAmount : ℚ
  paymentDate : String
  paymentVoucher : String
  paymentAmount : ℚ
  outstanding : ℚ
deriving DecidableEq, Repr

/-- Row construction of the temporary-receipt loop: matched rows per
src/temp_receipt_cleaner.py lines 38-48 (`Outstanding = tr_amount - pay debit`),
unmatched rows per lines 53-63. -/
def trBuildRow : Txn × Option (Nat × Txn) → TRRow
  | (tr, some ip) =>
    { trDate := tr.date, trVoucher := tr.transNo, companyName := tr.vendor,
      trDescription := tr.descr, trAmount := tr.credit,
      paymentDate := ip.2.date, paymentVoucher := ip.2.transNo,
      paymentAmount := ip.2.debit, outstanding := tr.credit - ip.2.debit }
  | (tr, none) =>
    { trDate := tr.date, trVoucher := tr.transNo, companyName := tr.vendor,
      trDescription := tr.descr, trAmount := tr.credit,
      paymentDate := "", paymentVoucher := "", paymentAmount := 0,
      outstanding := tr.credit }

/-- The matched-and-built rows of `transform_temp_receipt`, before the
TOTAL row is appended. -/
def trRows (df : List Txn) : List TRRow :=
  (matchLoop trPred (trCharges df) (trSettlements df).enum []).map trBuildRow

/-- The TOTAL row of `transform_temp_receipt`
(src/temp_receipt_cleaner.py lines 68-78). -/
def trTotalRow (rows : List TRRow) : TRRow :=
  { trDate := "TOTAL", trVoucher := "", companyName := "", trDescription := "",
    trAmount := (rows.map (·.trAmount)).sum,
    paymentDate := "", paymentVoucher := "",
    paymentAmount := (rows.map (·.paymentAmount)).sum,
    outstanding := (rows.map (·.outstanding)).sum }

/-- src/temp_receipt_cleaner.py `transform_temp_receipt` (lines 3-81).
When no temporary receipt has credit > 0, `matched_rows` is empty and the
Total-row construction at line 73 raises `KeyError("TR Amount")` on the
column-less empty frame; otherwise the report is the charge rows followed
by the TOTAL row. -/
def transform_temp_receipt (df : List Txn) : Except PyStop (List TRRow) :=
  if trRows df = [] then .error (.keyError ["TR Amount"])
  else .ok (trRows df ++ [trTotalRow (trRows df)])

/-- Other-receivable match predicate: `round(pay_row["Credit"]) == round(or_row["Debit"])`
(src/or_cleaner.py lines 19-26). -/
def orPred (c p : Txn) : Bool := decide (pyRound p.credit = pyRound c.debit)

/-- The other receivables (charges): `df[df["Debit"] > 0]`
(src/or_cleaner.py line 12). -/
def orCharges (df : List Txn) : List Txn :=
  df.filter fun t => decide (0 < t.debit)

/-- The payments (settlements): `df[df["Credit"] > 0]`
(src/or_cleaner.py line 13). -/
def orSettlements (df : List Txn) : List Txn :=
  df.filter fun t => decide (0 < t.credit)

/-- An output row of `transform_other_receivable`
(src/or_cleaner.py lines 28-61, 66-80).  `originalRate` is `some 1` on
charge rows and `none` on the TOTAL row, whose Original Rate cell is the
empty string. -/
structure ORRow where
  date : String
  invNo : String
  voucherNo : String
  companyName : String
  description : String
  currency : String
  originalAmount : ℚ
  originalRate : Option ℚ
  amount : ℚ
  paymentDate : String
  paymentVoucherNo : String
  paymentAmount : ℚ
  endingBalance : ℚ
deriving DecidableEq, Repr

/-- Row construction of the other-receivable loop: matched rows per
src/or_cleaner.py lines 28-42 (`Amount = round(Debit)`, `Ending Balance = 0`),
unmatched rows per lines 47-61 (`Ending Balance = round(Debit)`). -/
def orBuildRow : Txn × Option (Nat × Txn) → ORRow
  | (c, some ip) =>
    { date := c.date, invNo := "", voucherNo := c.transNo,
      companyName := c.vendor, description := c.descr, currency := "IDR",
      originalAmount := c.debit, originalRate := some 1,
      amount := (pyRound c.debit : ℤ),
      paymentDate := ip.2.date, paymentVoucherNo := ip.2.transNo,
      paymentAmount := (pyRound ip.2.credit : ℤ), endingBalance := 0 }
  | (c, none) =>
    { date := c.date, invNo := "", voucherNo := c.transNo,
      companyName := c.vendor, description := c.descr, currency := "IDR",
      originalAmount := c.debit, originalRate := some 1,
      amount := (pyRound c.debit : ℤ),
      paymentDate := "", paymentVoucherNo := "", paymentAmount := 0,
      endingBalance := (pyRound c.debit : ℤ) }

/-- The matched-and-built rows of `transform_other_receivable`, before the
TOTAL row is appended. -/
def orRows (df : List Txn) : List ORRow :=
  (matchLoop orPred (orCharges df) (orSettlements df).enum []).map orBuildRow

/-- The TOTAL row of `transform_other_receivable`
(src/or_cleaner.py lines 66-80). -/
def orTotalRow (rows : List ORRow) : ORRow :=
  { date := "TOTAL", invNo := "", voucherNo := "", companyName := "",
    description := "", currency := "",
    originalAmount := (rows.map (·.originalAmount)).sum,
    originalRate := none,
    amount := (rows.map (·.amount)).sum,
    paymentDate := "", paymentVoucherNo := "",
    paymentAmount := (rows.map (·.paymentAmount)).sum,
    endingBalance := (rows.map (·.endingBalance)).sum }

/-- src/or_cleaner.py `transform_other_receivable` (lines 3-83).
When no row has Debit > 0, `output_rows` is empty and the TOTAL-row
construction at line 73 raises `KeyError("Original Amount")` on the
column-less empty frame; otherwise the report is the charge rows followed
by the TOTAL row. -/
def transform_other_receivable (df : List Txn) : Except PyStop (List ORRow) :=
  if orRows df = [] then .error (.keyError ["Original Amount"])
  else .ok (orRows df ++ [orTotalRow (orRows df)])

/-- An input row of the account-receivable cleaner, restricted to the seven
columns `match_sales_receipts` reads (Date, Invoice No, Transaction Type,
Customer, Description, Voucher No, Payment Amount); the remaining required
columns of src/ar_cleaner.py lines 87-91 are not consulted by the matcher. -/
structure ARTxn where
  date : String
  invoiceNo : String
  transactionType : String
  customer : String
  descr : String
  voucherNo : String
  paymentAmount : ℚ
deriving DecidableEq, Repr

/-- An output row of `match_sales_receipts`: the invoice row plus the three
receipt columns initialised at src/ar_cleaner.py lines 27-29 and filled at
lines 50-52.  The source converts the receipt date with
`pd.to_datetime(..., errors="coerce").date()`; that presentational
conversion is modelled as carrying the receipt's date string. -/
structure ARInvRow where
  inv : ARTxn
  srDate : Option String
  srVoucher : Option String
  srAmount : ℚ
deriving DecidableEq, Repr

/-- The invoices: rows whose Transaction Type contains "invoice",
case-insensitively (src/ar_cleaner.py line 24). -/
def arInvoices (df : List ARTxn) : List ARTxn :=
  df.filter fun t => containsCI t.transactionType "invoice"

/-- The receipts: rows whose Transaction Type contains "receipt",
case-insensitively (src/ar_cleaner.py line 25). -/
def arReceipts (df : List ARTxn) : List ARTxn :=
  df.filter fun t => containsCI t.transactionType "receipt"

/-- src/ar_cleaner.py `match_sales_receipts` (lines 21-54): for each
invoice, the first receipt with equal trimmed Customer whose Description
contains the trimmed Invoice No (case-insensitive) supplies the receipt
columns; no receipt is ever removed from the pool.  (`str.contains` takes
the invoice number as a regular-expression pattern; it is modelled as a
plain substring test, the behaviour for invoice numbers free of regex
metacharacters.) -/
def match_sales_receipts (df : List ARTxn) : List ARInvRow :=
  let receipts := arReceipts df
  (arInvoices df).map fun inv =>
    match receipts.find? (fun r =>
        pyStrip r.customer == pyStrip inv.customer &&
        containsCI r.descr (pyStrip inv.invoiceNo)) with
    | some r =>
      { inv := inv, srDate := some r.date, srVoucher := some r.voucherNo,
        srAmount := r.paymentAmount }
    | none => { inv := inv, srDate := none, srVoucher := none, srAmount := 0 }

/-- A calendar date as carried by a parsed pandas Timestamp. -/
structure YMD where
  y : Nat
  m : Nat
  d : Nat
deriving DecidableEq, Repr

/-- A row as seen by `generate_voucher_numbers_op`: its Date cell after
`pd.to_datetime(..., errors="coerce")` (`none` = NaT) and its
"Other Payable Voucher No" cell. -/
structure VRow where
  date : Option YMD
  voucher : Option String
deriving DecidableEq, Repr

/-- The voucher string `f"OP-{str(date.year)[-2:]}-{date.month:02d}-{seq:03d}"`
of src/ar_cleaner.py line 152. -/
def opVoucherString (d : YMD) (k : Nat) : String :=
  "OP-" ++ last2 (toString d.y) ++ "-" ++ pad2 d.m ++ "-" ++ pad3 k

/-- Helper for `generate_voucher_numbers_op`: `seen` carries the (year,
month) keys of the parseable rows already visited, standing for the
source's `counters` dictionary. -/
def genOpAux : List VRow → List (Nat × Nat) → List VRow
  | [], _ => []
  | r :: rest, seen =>
    match r.date with
    | none => { r with voucher := none } :: genOpAux rest seen
    | some d =>
      let key := (d.y, d.m)
      let n := (seen.filter (fun k => decide (k = key))).length + 1
      { r with voucher := some (opVoucherString d n) } ::
        genOpAux rest (key :: seen)

/-- src/ar_cleaner.py `generate_voucher_numbers_op` (lines 131-154): rows
are visited in frame order (no sorting); a row whose date is NaT is skipped
by the `continue` at line 144, leaving its voucher cell at the `None` set
at line 134. -/
def generate_voucher_numbers_op (rows : List VRow) : List VRow :=
  genOpAux rows []

/-- An input row of `transform_account_payable` (columns Date,
Vendor/Client, Trans No, Description, Debit, Credit; src/ar_cleaner.py
line 335).  The Date cell is carried as the value
`pd.to_datetime(..., errors="coerce")` produces at line 380
(`none` = NaT). -/
structure APTxn where
  date : Option YMD
  vendor : String
  transNo : String
  descr : String
  debit : ℚ
  credit : ℚ
deriving DecidableEq, Repr

/-- src/ar_cleaner.py `clean_trans_no` (lines 350-351): delete the
`(_?paid)` matches case-insensitively, then strip whitespace. -/
def cleanTransNo (t : String) : String := pyStrip (stripPaid t)

/-- Payment classification of `transform_account_payable`:
`Trans_No.str.contains(r"paid", case=False)` (src/ar_cleaner.py line 344). -/
def apIsPayment (t : APTxn) : Bool := containsCI t.transNo "paid"

/-- One expanded settlement fragment (src/ar_cleaner.py lines 357-369). -/
structure PayFrag where
  cleanKey : String
  payDate : Option YMD
  payVoucher : String
  payAmount : ℚ
deriving DecidableEq, Repr

/-- Expansion of one payment row into fragments: split the cleaned Trans No
on commas; each part is stripped and cleaned again; the full Debit amount
goes to the fragment at position 0 and 0 to the rest (src/ar_cleaner.py
lines 358-369). -/
def expandPayRow (p : APTxn) : List PayFrag :=
  (splitComma (cleanTransNo p.transNo)).enum.map fun it =>
    { cleanKey := stripPaid (pyStrip it.2),
      payDate := p.date,
      payVoucher := p.transNo,
      payAmount := if it.1 = 0 then p.debit else 0 }

/-- All fragments of all payment rows, deduplicated as
`pd.DataFrame(expanded_payments).drop_duplicates()` (src/ar_cleaner.py
line 370). -/
def apExpand (pays : List APTxn) : List PayFrag :=
  dedupKeepFirst (pays.flatMap expandPayRow)

/-- A row of the merged frame of `transform_account_payable`
(src/ar_cleaner.py lines 373-413). -/
structure APMerged where
  date : Option YMD
  vendor : String
  transNo : String
  voucherNo : String
  descr : String
  origAmount : ℚ
  amount : ℚ
  payDate : Option YMD
  payVoucher : Option String
  payAmount : ℚ
  endingBalance : ℚ
deriving DecidableEq, Repr

/-- The left merge on `Clean_Trans_No` (src/ar_cleaner.py lines 373-377): a
charge with no matching fragment yields one row with NaN payment columns; a
charge with matching fragments yields one row per fragment, in fragment
order. -/
def apMerge (charges : List (APTxn × String)) (frags : List PayFrag) :
    List ((APTxn × String) × Option PayFrag) :=
  charges.flatMap fun c =>
    match frags.filter (fun f => f.cleanKey == c.2) with
    | [] => [(c, none)]
    | ms => ms.map fun f => (c, some f)

/-- Column fill of src/ar_cleaner.py lines 380-388:
`Original Amount = Credit.fillna(0)`, `Amount = Original Amount.round()`,
`Payment Amount = Payment Amount.fillna(0)`,
`Ending Balance = Payment Amount - Amount`. -/
def apFill (cf : (APTxn × String) × Option PayFrag) : APMerged :=
  let c := cf.1.1
  let pay0 : ℚ := match cf.2 with | some f => f.payAmount | none => 0
  { date := c.date, vendor := c.vendor, transNo := c.transNo,
    voucherNo := "", descr := c.descr,
    origAmount := c.credit, amount := (pyRound c.credit : ℤ),
    payDate := cf.2.bind (·.payDate),
    payVoucher := cf.2.map (·.payVoucher),
    payAmount := pay0,
    endingBalance := pay0 - (pyRound c.credit : ℤ) }

/-- The allocation pass of src/ar_cleaner.py lines 391-396: every row in a
non-NaN Payment Voucher No group gets `Payment Amount = Original Amount`;
rows with NaN voucher (the unmatched ones) are left unchanged, as pandas
`groupby` drops the NaN key. -/
def apAllocate (r : APMerged) : APMerged :=
  if r.payVoucher.isSome then { r with payAmount := r.origAmount } else r

/-- The Ending Balance recomputation of src/ar_cleaner.py line 399. -/
def apRecomputeEB (r : APMerged) : APMerged :=
  { r with endingBalance := r.payAmount - r.amount }

/-- The `%y-%m` bucket string of src/ar_cleaner.py lines 402-405:
strftime `%y-%m` for a parsed date, the sentinel "00-00" for NaT. -/
def apBucket (d : Option YMD) : String :=
  match d with
  | some x => pad2 (x.y % 100) ++ "-" ++ pad2 x.m
  | none => "00-00"

/-- The AP voucher assignment of src/ar_cleaner.py lines 402-406:
`groupby(bucket).cumcount() + 1` in frame order, rendered as
`"AP-" ++ bucket ++ "-" ++ zfill(3)`.  `seen` carries the buckets of the
rows already visited. -/
def apAssignVouchersAux : List APMerged → List String → List APMerged
  | [], _ => []
  | r :: rest, seen =>
    let b := apBucket r.date
    let n := (seen.filter (fun s => s == b)).length + 1
    { r with voucherNo := "AP-" ++ b ++ "-" ++ pad3 n } ::
      apAssignVouchersAux rest (b :: seen)

/-- An output row of `transform_account_payable`: either a merged charge
row, or a per-vendor subtotal row (src/ar_cleaner.py lines 419-433), whose
Date cell reads `"Subtotal {vendor}"` and whose numeric cells are the group
sums; the remaining cells are blank. -/
inductive APOut where
  | row (r : APMerged)
  | subtotal (vendor : String) (origAmount amount payAmount endingBalance : ℚ)
deriving DecidableEq, Repr

/-- The distinct vendor keys in the ascending order pandas
`groupby("Vendor", sort=True)` visits them (src/ar_cleaner.py line 417). -/
def apVendorKeys (rows : List APMerged) : List String :=
  sortStrings (dedupKeepFirst (rows.map (·.vendor)))

/-- The subtotal row of one vendor group (src/ar_cleaner.py lines 419-433). -/
def apSubtotalOf (vendor : String) (g : List APMerged) : APOut :=
  .subtotal vendor ((g.map (·.origAmount)).sum) ((g.map (·.amount)).sum)
    ((g.map (·.payAmount)).sum) ((g.map (·.endingBalance)).sum)

/-- The vendor grouping of src/ar_cleaner.py lines 416-436: each vendor's
rows in frame order, followed by that vendor's subtotal row; no grand total
row is appended. -/
def apAddSubtotals (rows : List APMerged) : List APOut :=
  (apVendorKeys rows).flatMap fun v =>
    let g := rows.filter (fun r => r.vendor == v)
    (g.map APOut.row) ++ [apSubtotalOf v g]

/-- The report `transform_account_payable` builds when it completes: the
pipeline of src/ar_cleaner.py lines 344-436.  The final column renames and
NaN-to-blank replacement (lines 438-445) are presentational and not
modelled. -/
def apReport (df : List APTxn) : List APOut :=
  let ap := df.filter fun t => !(apIsPayment t)
  let pays := df.filter apIsPayment
  let charges := ap.map fun c => (c, cleanTransNo c.transNo)
  let merged := (apMerge charges (apExpand pays)).map apFill
  let alloc := (merged.map apAllocate).map apRecomputeEB
  apAddSubtotals (apAssignVouchersAux alloc [])

/-- src/ar_cleaner.py `transform_account_payable` (lines 331-447).  When
the ledger holds no payment row, `expanded_payments` is empty and
`pd.DataFrame([])` lacks the `Clean_Trans_No` column, so the merge at line
373 raises `KeyError("Clean_Trans_No")`; when it holds no charge row,
`grouped` is empty and `pd.concat([])` at line 436 raises a `ValueError`;
otherwise the subtotalled report is returned. -/
def transform_account_payable (df : List APTxn) : Except PyStop (List APOut) :=
  if df.filter apIsPayment = [] then .error (.keyError ["Clean_Trans_No"])
  else if (df.filter fun t => !(apIsPayment t)) = [] then
    .error (.valueError "No objects to concatenate")
  else .ok (apReport df)

/-- The normal (non-subtotal) rows of an account-payable report. -/
def apNormalRows (out : List APOut) : List APMerged :=
  out.filterMap fun r =>
    match r with
    | .row m => some m
    | .subtotal _ _ _ _ _ => none

/-- A raw uploaded table: its column names and its rows as cell
assignments, the shape `pd.read_excel` hands to a transform before any
column selection. -/
structure RawTable where
  cols : List String
  rows : List (List (String × String))
deriving DecidableEq, Repr

/-- The required columns absent from a table, in required-list order. -/
def missingColumns (req : List String) (t : RawTable) : List String :=
  req.filter fun c => !(decide (c ∈ t.cols))

/-- The column selection `df = df[[...]]`: pandas raises a `KeyError`
naming the missing columns when any required column is absent, before any
output row is produced; otherwise it returns the table restricted to the
required columns (src/ar_cleaner.py lines 87-91 and 177, 335). -/
def selectColumns (req : List String) (t : RawTable) : Except PyStop RawTable :=
  if missingColumns req t = [] then
    .ok { cols := req,
          rows := t.rows.map fun row => row.filter fun kv => decide (kv.1 ∈ req) }
  else .error (.keyError (missingColumns req t))

/-- The required columns of `transform_account_receivable`
(src/ar_cleaner.py lines 87-91). -/
def arRequiredColumns : List String :=
  ["Date", "Invoice No", "Transaction Type", "Customer", "Description",
   "Currency", "Original Amount", "Rate", "Amount", "Payment Date",
   "Voucher No", "Payment Amount"]

/-- The required columns of `transform_other_payable`
(src/ar_cleaner.py line 177). -/
def opRequiredColumns : List String :=
  ["Date", "Vendor/Client", "Trans No", "Description", "Currency", "Rate",
   "Debit", "Credit"]

/-- src/ar_cleaner.py `transform_other_payable` (lines 173-319).  After the
column selection at line 177 succeeds, the function renames columns,
classifies payments, cleans transaction numbers and expands payment
fragments (lines 180-209) — all total operations — and then the merge at
line 212 reads the name `ap_df`, which is never bound in this function
(its charge rows are bound to `op_df` at line 188; `ap_df` is a local of
the distinct function `transform_account_payable`), so Python raises
`NameError` and no report frame is ever returned. -/
def transform_other_payable (t : RawTable) : Except PyStop Unit :=
  match selectColumns opRequiredColumns t with
  | .error e => .error e
  | .ok _ => .error (.nameError "ap_df")

/-- The settlement indices a matching run consumed, in consumption order. -/
def matchPicks (l : List (Txn × Option (Nat × Txn))) : List Nat :=
  l.filterMap fun r => r.2.map Prod.fst

/-! ## Helper lemmas -/

theorem sum_map_sub {α : Type} (f g h : α → ℚ) (l : List α)
    (H : ∀ r ∈ l, f r = g r - h r) :
    (l.map f).sum = (l.map g).sum - (l.map h).sum := by
  induction l with
  | nil => simp
  | cons a as ih =>
    simp only [List.map_cons, List.sum_cons]
    rw [H a (List.mem_cons_self a as), ih fun r hr => H r (List.mem_cons_of_mem a hr)]
    ring

theorem dropLast_append_single {α : Type} (l : List α) (a : α) :
    (l ++ [a]).dropLast = l := by
  simp

/-- Every match the loop emits satisfies the match predicate. -/
theorem matchLoop_pred (p : Txn → Txn → Bool) (cs : List Txn)
    (pool : List (Nat × Txn)) :
    ∀ (used : List Nat) (r : Txn × Option (Nat × Txn)),
      r ∈ matchLoop p cs pool used → ∀ ip, r.2 = some ip → p r.1 ip.2 = true := by
  induction cs with
  | nil => intro used r hr; simp [matchLoop] at hr
  | cons c cs ih =>
    intro used r hr ip hip
    rw [matchLoop] at hr
    cases hfind : pool.find? (fun ip => !(decide (ip.1 ∈ used)) && p c ip.2) with
    | some ip0 =>
      rw [hfind] at hr
      rcases List.mem_cons.mp hr with h | h
      · subst h
        simp only at hip
        cases hip
        have hp := List.find?_some hfind
        have hp' : !(decide (ip.1 ∈ used)) = true ∧ p c ip.2 = true := by
          simpa using hp
        exact hp'.2
      · exact ih _ r h ip hip
    | none =>
      rw [hfind] at hr
      rcases List.mem_cons.mp hr with h | h
      · subst h; simp at hip
      · exact ih _ r h ip hip

/-- The loop emits one result row per charge. -/
theorem matchLoop_length (p : Txn → Txn → Bool) (cs : List Txn)
    (pool : List (Nat × Txn)) :
    ∀ used : List Nat, (matchLoop p cs pool used).length = cs.length := by
  induction cs with
  | nil => intro used; rfl
  | cons c cs ih =>
    intro used
    rw [matchLoop]
    cases hfind : pool.find? (fun ip => !(decide (ip.1 ∈ used)) && p c ip.2) with
    | some ip0 => simp [ih]
    | none => simp [ih]

/-- The consumed settlement indices are pairwise distinct and disjoint from
the initial used set. -/
theorem matchLoop_picks (p : Txn → Txn → Bool) (cs : List Txn)
    (pool : List (Nat × Txn)) :
    ∀ used : List Nat,
      (matchPicks (matchLoop p cs pool used)).Nodup ∧
      ∀ i ∈ matchPicks (matchLoop p cs pool used), i ∉ used := by
  induction cs with
  | nil => intro used; simp [matchLoop, matchPicks]
  | cons c cs ih =>
    intro used
    rw [matchLoop]
    cases hfind : pool.find? (fun ip => !(decide (ip.1 ∈ used)) && p c ip.2) with
    | some ip =>
      have hp := List.find?_some hfind
      have hnotused : ip.1 ∉ used := by
        have hp' : !(decide (ip.1 ∈ used)) = true ∧ p c ip.2 = true := by
          simpa using hp
        simpa using hp'.1
      obtain ⟨ihn, ihd⟩ := ih (ip.1 :: used)
      constructor
      · simp only [matchPicks, List.filterMap_cons, Option.map_some']
        refine List.nodup_cons.mpr ⟨fun hmem => ?_, ihn⟩
        exact (ihd ip.1 hmem) (List.mem_cons_self _ _)
      · intro i hi
        simp only [matchPicks, List.filterMap_cons, Option.map_some'] at hi
        rcases List.mem_cons.mp hi with rfl | hi
        · exact hnotused
        · exact fun hiu => (ihd i hi) (List.mem_cons_of_mem _ hiu)
    | none =>
      obtain ⟨ihn, ihd⟩ := ih used
      constructor
      · simpa [matchPicks, List.filterMap_cons] using ihn
      · intro i hi
        simp only [matchPicks, List.filterMap_cons, Option.map_none'] at hi
        exact ihd i hi

/-- Per-row balance identity of the advance-payment rows. -/
theorem advRow_invariant (df : List Txn) :
    ∀ r ∈ matchLoop advPred (advCharges df) (advSettlements df).enum [],
      (advBuildRow r).outstanding
        = (advBuildRow r).amount - (advBuildRow r).paymentAmount := by
  intro r hr
  obtain ⟨c, opt⟩ := r
  cases opt with
  | none => simp [advBuildRow]
  | some ip =>
    have h := matchLoop_pred advPred (advCharges df) (advSettlements df).enum
      [] (c, some ip) hr ip rfl
    have hc : c.debit = ip.2.credit := of_decide_eq_true (by simpa [advPred] using h)
    simp [advBuildRow, hc]

/-- Per-row balance identity of the temporary-receipt rows. -/
theorem trRow_invariant (df : List Txn) :
    ∀ r ∈ matchLoop trPred (trCharges df) (trSettlements df).enum [],
      (trBuildRow r).outstanding
        = (trBuildRow r).trAmount - (trBuildRow r).paymentAmount := by
  intro r _
  obtain ⟨c, opt⟩ := r
  cases opt with
  | none => simp [trBuildRow]
  | some ip => simp [trBuildRow]

/-- Per-row balance identity of the other-receivable rows. -/
theorem orRow_invariant (df : List Txn) :
    ∀ r ∈ matchLoop orPred (orCharges df) (orSettlements df).enum [],
      (orBuildRow r).endingBalance
        = (orBuildRow r).amount - (orBuildRow r).paymentAmount := by
  intro r hr
  obtain ⟨c, opt⟩ := r
  cases opt with
  | none => simp [orBuildRow]
  | some ip =>
    have h := matchLoop_pred orPred (orCharges df) (orSettlements df).enum
      [] (c, some ip) hr ip rfl
    have hc : pyRound ip.2.credit = pyRound c.debit :=
      of_decide_eq_true (by simpa [orPred] using h)
    simp [orBuildRow, hc]

/-- Inversion: a completed advance-payment run yields the charge rows plus
the TOTAL row. -/
theorem transform_advance_payment_ok {df : List Txn} {out : List AdvRow}
    (h : transform_advance_payment df = .ok out) :
    out = advRows df ++ [advTotalRow (advRows df)] := by
  rw [transform_advance_payment] at h
  by_cases hg : advRows df = []
  · rw [if_pos hg] at h; cases h
  · rw [if_neg hg] at h; exact (Except.ok.inj h).symm

/-- Inversion: a completed temporary-receipt run yields the charge rows
plus the TOTAL row. -/
theorem transform_temp_receipt_ok {df : List Txn} {out : List TRRow}
    (h : transform_temp_receipt df = .ok out) :
    out = trRows df ++ [trTotalRow (trRows df)] := by
  rw [transform_temp_receipt] at h
  by_cases hg : trRows df = []
  · rw [if_pos hg] at h; cases h
  · rw [if_neg hg] at h; exact (Except.ok.inj h).symm

/-- Inversion: a completed other-receivable run yields the charge rows
plus the TOTAL row. -/
theorem transform_other_receivable_ok {df : List Txn} {out : List ORRow}
    (h : transform_other_receivable df = .ok out) :
    out = orRows df ++ [orTotalRow (orRows df)] := by
  rw [transform_other_receivable] at h
  by_cases hg : orRows df = []
  · rw [if_pos hg] at h; cases h
  · rw [if_neg hg] at h; exact (Except.ok.inj h).symm

/-- Inversion: a completed account-payable run yields the subtotalled
report. -/
theorem transform_account_payable_ok {df : List APTxn} {out : List APOut}
    (h : transform_account_payable df = .ok out) : out = apReport df := by
  rw [transform_account_payable] at h
  by_cases h1 : df.filter apIsPayment = []
  · rw [if_pos h1] at h; cases h
  · rw [if_neg h1] at h
    by_cases h2 : (df.filter fun t => !(apIsPayment t)) = []
    · rw [if_pos h2] at h; cases h
    · rw [if_neg h2] at h; exact (Except.ok.inj h).symm

/-- A normal row of the subtotalled report is one of the grouped rows. -/
theorem mem_apAddSubtotals {rows : List APMerged} {m : APMerged}
    (h : APOut.row m ∈ apAddSubtotals rows) : m ∈ rows := by
  simp only [apAddSubtotals, List.mem_flatMap] at h
  obtain ⟨v, _, hm⟩ := h
  rcases List.mem_append.mp hm with h | h
  · obtain ⟨r, hr, heq⟩ := List.mem_map.mp h
    cases heq
    exact (List.mem_filter.mp hr).1
  · simp [apSubtotalOf] at h

/-- Voucher assignment only rewrites the voucher cell. -/
theorem mem_apAssignVouchers :
    ∀ (l : List APMerged) (seen : List String) (r : APMerged),
      r ∈ apAssignVouchersAux l seen →
      ∃ r0 ∈ l, ∃ s, r = { r0 with voucherNo := s } := by
  intro l
  induction l with
  | nil => intro seen r hr; simp [apAssignVouchersAux] at hr
  | cons a as ih =>
    intro seen r hr
    rw [apAssignVouchersAux] at hr
    rcases List.mem_cons.mp hr with rfl | hr
    · exact ⟨a, List.mem_cons_self _ _, _, rfl⟩
    · obtain ⟨r0, h0, s, hs⟩ := ih _ r hr
      exact ⟨r0, List.mem_cons_of_mem _ h0, s, hs⟩

/-- The pre-subtotal rows of the account-payable pipeline, after merge,
column fill, allocation and Ending Balance recomputation
(src/ar_cleaner.py lines 344-399). -/
def apAllocRows (df : List APTxn) : List APMerged :=
  let ap := df.filter fun t => !(apIsPayment t)
  let pays := df.filter apIsPayment
  let charges := ap.map fun c => (c, cleanTransNo c.transNo)
  (((apMerge charges (apExpand pays)).map apFill).map apAllocate).map apRecomputeEB

/-- Balance and allocation identities of every pre-subtotal row. -/
theorem apAllocRows_spec (df : List APTxn) :
    ∀ m ∈ apAllocRows df,
      m.endingBalance = m.payAmount - m.amount ∧
      m.payAmount = (if m.payVoucher.isSome then m.origAmount else 0) := by
  intro m hm
  simp only [apAllocRows, List.mem_map] at hm
  obtain ⟨m2, ⟨m1, ⟨cf, _, rfl⟩, rfl⟩, rfl⟩ := hm
  cases hfrag : cf.2 with
  | none => simp [apFill, apAllocate, apRecomputeEB, hfrag]
  | some f => simp [apFill, apAllocate, apRecomputeEB, hfrag]

/-- The fields a normal output row of `transform_account_payable` carries
are those of one of the allocated rows (only the voucher cell differs). -/
theorem ap_row_mem (input : List APTxn) (r : APMerged)
    (h : APOut.row r ∈ apReport input) :
    ∃ m ∈ apAllocRows input,
      r.payAmount = m.payAmount ∧ r.amount = m.amount ∧
      r.origAmount = m.origAmount ∧ r.payVoucher = m.payVoucher ∧
      r.endingBalance = m.endingBalance := by
  have h1 : r ∈ apAssignVouchersAux (apAllocRows input) [] := by
    apply mem_apAddSubtotals
    simpa [apReport, apAllocRows] using h
  obtain ⟨r0, h0, s, rfl⟩ := mem_apAssignVouchers _ _ _ h1
  exact ⟨r0, h0, rfl, rfl, rfl, rfl, rfl⟩

/-- `generate_voucher_numbers_op` keeps the rows and their dates in frame
order. -/
theorem genOpAux_dates :
    ∀ (rows : List VRow) (seen : List (Nat × Nat)),
      (genOpAux rows seen).map (·.date) = rows.map (·.date) := by
  intro rows
  induction rows with
  | nil => intro seen; rfl
  | cons r rest ih =>
    intro seen
    cases hd : r.date with
    | none => simp [genOpAux, hd, ih]
    | some d => simp [genOpAux, hd, ih]

/-- Voucher cells assigned by `generate_voucher_numbers_op`: skipped rows
keep `None`, parseable rows get a formatted voucher with a positive
sequence number. -/
theorem genOpAux_voucher :
    ∀ (rows : List VRow) (seen : List (Nat × Nat)) (r : VRow),
      r ∈ genOpAux rows seen →
        (r.date = none → r.voucher = none) ∧
        (∀ d, r.date = some d →
          ∃ k, 1 ≤ k ∧ r.voucher = some (opVoucherString d k)) := by
  intro rows
  induction rows with
  | nil => intro seen r hr; simp [genOpAux] at hr
  | cons a rest ih =>
    intro seen r hr
    cases hd : a.date with
    | none =>
      rw [genOpAux, hd] at hr
      rcases List.mem_cons.mp hr with rfl | hr
      · exact ⟨fun _ => rfl, fun d hd2 => by simp at hd2⟩
      · exact ih _ r hr
    | some d =>
      rw [genOpAux, hd] at hr
      rcases List.mem_cons.mp hr with rfl | hr
      · refine ⟨fun hn => by simp at hn, fun d2 hd2 => ?_⟩
        simp only [Option.some.injEq] at hd2
        subst hd2
        exact ⟨_, Nat.le_add_left 1 _, rfl⟩
      · exact ih _ r hr

/-! ## Concrete inputs used by counterexamples and witnesses -/

section ConcreteEvaluation

attribute [local semireducible] Rat.mul Rat.sub Rat.add Rat.inv

/-- A ledger with one advance of 50 and one settlement of 100 that matches
no charge. -/
def c3ex : List Txn :=
  [{ date := "2025-02-01", transNo := "CHG1", vendor := "Acme",
     descr := "advance", debit := 50, credit := 0 },
   { date := "2025-03-01", transNo := "PAY1", vendor := "Acme",
     descr := "payment", debit := 0, credit := 100 }]

/-- A ledger used to instantiate the universally quantified claims at a
run that completes: one charge on each side, no match. -/
def wdf : List Txn :=
  [{ date := "2025-01-05", transNo := "D1", vendor := "A",
     descr := "chg", debit := 5, credit := 0 },
   { date := "2025-01-06", transNo := "C1", vendor := "B",
     descr := "pay", debit := 0, credit := 7 }]

/-- A ledger row with both Debit and Credit positive. -/
def c5txn : Txn :=
  { date := "2025-01-01", transNo := "T1", vendor := "V",
    descr := "both sides", debit := 5, credit := 5 }

/-- Two same-customer invoices and one receipt whose description mentions
both invoice numbers. -/
def c2ex : List ARTxn :=
  [{ date := "2025-01-01", invoiceNo := "INV1", transactionType := "Invoice",
     customer := "A", descr := "first", voucherNo := "", paymentAmount := 100 },
   { date := "2025-01-02", invoiceNo := "INV2", transactionType := "Invoice",
     customer := "A", descr := "second", voucherNo := "", paymentAmount := 200 },
   { date := "2025-01-05", invoiceNo := "", transactionType := "Receipt",
     customer := "A", descr := "payment INV1 INV2", voucherNo := "RCPT-1",
     paymentAmount := 300 }]

/-- One unmatched account-payable charge of 100, plus a payment row that
matches no charge (so the merge step has a payment frame to work on). -/
def c4ex : List APTxn :=
  [{ date := some ⟨2025, 1, 10⟩, vendor := "V", transNo := "INV9",
     descr := "x", debit := 0, credit := 100 },
   { date := some ⟨2025, 1, 20⟩, vendor := "Zed", transNo := "ZZZ paid",
     descr := "pay", debit := 10, credit := 0 }]

/-- Two unmatched account-payable charges of two different vendors, plus a
payment row that matches no charge. -/
def c6ex : List APTxn :=
  [{ date := some ⟨2025, 1, 10⟩, vendor := "Alpha", transNo := "INV1",
     descr := "x", debit := 0, credit := 100 },
   { date := some ⟨2025, 1, 15⟩, vendor := "Beta", transNo := "INV2",
     descr := "y", debit := 0, credit := 200 },
   { date := some ⟨2025, 1, 20⟩, vendor := "Zed", transNo := "XX paid",
     descr := "pay", debit := 10, credit := 0 }]

/-- Two account-payable charges and one payment row referencing both. -/
def c7ex : List APTxn :=
  [{ date := some ⟨2025, 1, 5⟩, vendor := "V", transNo := "INV1",
     descr := "a", debit := 0, credit := 100 },
   { date := some ⟨2025, 1, 6⟩, vendor := "V", transNo := "INV2",
     descr := "b", debit := 0, credit := 200 },
   { date := some ⟨2025, 2, 1⟩, vendor := "V", transNo := "INV1, INV2 paid",
     descr := "pay", debit := 300, credit := 0 }]

/-- Rows out of date order in one month, plus an unparseable-date row. -/
def c8rows : List VRow :=
  [{ date := some ⟨2025, 2, 10⟩, voucher := none },
   { date := some ⟨2025, 2, 5⟩, voucher := none },
   { date := none, voucher := none }]

/-- A table carrying only two of the required AR columns. -/
def c9table : RawTable := { cols := ["Date", "Invoice No"], rows := [] }

/-- A table with no columns at all. -/
def c10table : RawTable := { cols := [], rows := [] }

/-! ## Claims -/

/-- C1.  Conservation: in every completed run of the strict-amount
cleaners (`transform_advance_payment`, `transform_temp_receipt`,
`transform_other_receivable`), over all charge output rows — the rows
before the final TOTAL row — the sum of the Outstanding / Ending Balance
column equals the sum of the charge Amount column minus the sum of the
matched Payment Amount column.  (A run with no charge rows aborts with a
KeyError before producing any output and so has no rows to sum.) -/
theorem conservation_strict_cleaners (df : List Txn)
    (advOut : List AdvRow) (trOut : List TRRow) (orOut : List ORRow) :
    (transform_advance_payment df = .ok advOut →
      (advOut.dropLast.map (·.outstanding)).sum
        = (advOut.dropLast.map (·.amount)).sum
          - (advOut.dropLast.map (·.paymentAmount)).sum) ∧
    (transform_temp_receipt df = .ok trOut →
      (trOut.dropLast.map (·.outstanding)).sum
        = (trOut.dropLast.map (·.trAmount)).sum
          - (trOut.dropLast.map (·.paymentAmount)).sum) ∧
    (transform_other_receivable df = .ok orOut →
      (orOut.dropLast.map (·.endingBalance)).sum
        = (orOut.dropLast.map (·.amount)).sum
          - (orOut.dropLast.map (·.paymentAmount)).sum) := by
  refine ⟨fun h => ?_, fun h => ?_, fun h => ?_⟩
  · rw [transform_advance_payment_ok h, dropLast_append_single, advRows,
      List.map_map, List.map_map, List.map_map]
    exact sum_map_sub _ _ _ _ (advRow_invariant df)
  · rw [transform_temp_receipt_ok h, dropLast_append_single, trRows,
      List.map_map, List.map_map, List.map_map]
    exact sum_map_sub _ _ _ _ (trRow_invariant df)
  · rw [transform_other_receivable_ok h, dropLast_append_single, orRows,
      List.map_map, List.map_map, List.map_map]
    exact sum_map_sub _ _ _ _ (orRow_invariant df)

/-- The completed advance-payment report on `wdf`. -/
def wAdvOut : List AdvRow :=
  [{ date := "2025-01-05", voucherNo := "D1", companyName := "A",
     description := "chg", amount := 5, paymentDate := "",
     paymentVoucherNo := "", paymentAmount := 0, outstanding := 5 },
   { date := "TOTAL", voucherNo := "", companyName := "", description := "",
     amount := 5, paymentDate := "", paymentVoucherNo := "",
     paymentAmount := 0, outstanding := 5 }]

/-- The completed temporary-receipt report on `wdf`. -/
def wTrOut : List TRRow :=
  [{ trDate := "2025-01-06", trVoucher := "C1", companyName := "B",
     trDescription := "pay", trAmount := 7, paymentDate := "",
     paymentVoucher := "", paymentAmount := 0, outstanding := 7 },
   { trDate := "TOTAL", trVoucher := "", companyName := "",
     trDescription := "", trAmount := 7, paymentDate := "",
     paymentVoucher := "", paymentAmount := 0, outstanding := 7 }]

/-- The completed other-receivable report on `wdf`. -/
def wOrOut : List ORRow :=
  [{ date := "2025-01-05", invNo := "", voucherNo := "D1",
     companyName := "A", description := "chg", currency := "IDR",
     originalAmount := 5, originalRate := some 1, amount := 5,
     paymentDate := "", paymentVoucherNo := "", paymentAmount := 0,
     endingBalance := 5 },
   { date := "TOTAL", invNo := "", voucherNo := "", companyName := "",
     description := "", currency := "", originalAmount := 5,
     originalRate := none, amount := 5, paymentDate := "",
     paymentVoucherNo := "", paymentAmount := 0, endingBalance := 5 }]

/-- C1 witness: on the concrete ledger `wdf` all three strict-amount runs
complete, and the conservation identity holds of each report. -/
theorem conservation_strict_cleaners_witness :
    (transform_advance_payment wdf = .ok wAdvOut ∧
      (wAdvOut.dropLast.map (·.outstanding)).sum
        = (wAdvOut.dropLast.map (·.amount)).sum
          - (wAdvOut.dropLast.map (·.paymentAmount)).sum) ∧
    (transform_temp_receipt wdf = .ok wTrOut ∧
      (wTrOut.dropLast.map (·.outstanding)).sum
        = (wTrOut.dropLast.map (·.trAmount)).sum
          - (wTrOut.dropLast.map (·.paymentAmount)).sum) ∧
    (transform_other_receivable wdf = .ok wOrOut ∧
      (wOrOut.dropLast.map (·.endingBalance)).sum
        = (wOrOut.dropLast.map (·.amount)).sum
          - (wOrOut.dropLast.map (·.paymentAmount)).sum) :=
  ⟨⟨by decide,
    (conservation_strict_cleaners wdf wAdvOut wTrOut wOrOut).1 (by decide)⟩,
   ⟨by decide,
    (conservation_strict_cleaners wdf wAdvOut wTrOut wOrOut).2.1 (by decide)⟩,
   ⟨by decide,
    (conservation_strict_cleaners wdf wAdvOut wTrOut wOrOut).2.2 (by decide)⟩⟩

/-- C2 (amended).  At-most-once settlement use holds for the used-set
strict-amount matching loop shared by the advance-payment, temporary
receipt and other-receivable cleaners: in a single run, the consumed
settlement pool indices are pairwise distinct, so no settlement's fields
appear in more than one output row of those cleaners.  (The claim's
universal form over every policy fails: `match_sales_receipts` keeps no
used set; see the counterexample.) -/
theorem matcher_at_most_once (p : Txn → Txn → Bool) (cs : List Txn)
    (pool : List (Nat × Txn)) (df : List Txn) :
    (matchPicks (matchLoop p cs pool [])).Nodup ∧
    (matchPicks
      (matchLoop advPred (advCharges df) (advSettlements df).enum [])).Nodup ∧
    (matchPicks
      (matchLoop trPred (trCharges df) (trSettlements df).enum [])).Nodup ∧
    (matchPicks
      (matchLoop orPred (orCharges df) (orSettlements df).enum [])).Nodup :=
  ⟨(matchLoop_picks p cs pool []).1,
   (matchLoop_picks advPred (advCharges df) (advSettlements df).enum []).1,
   (matchLoop_picks trPred (trCharges df) (trSettlements df).enum []).1,
   (matchLoop_picks orPred (orCharges df) (orSettlements df).enum []).1⟩

/-- C2 counterexample.  `match_sales_receipts` assigns the single receipt
RCPT-1 of `c2ex` to both invoices: one settlement appears in two match
results of a single run. -/
theorem settlement_reused_cex :
    (match_sales_receipts c2ex).map (·.srVoucher)
      = [some "RCPT-1", some "RCPT-1"] ∧
    (arReceipts c2ex).length = 1 := by decide

/-- C3 (amended).  Settlements unmatched after all charges are processed
are silently dropped, not reported: the advance-payment and temporary
receipt reports contain exactly one row per charge plus the TOTAL row, so
no settlement row — matched or unmatched — survives as a row of its own,
and no "Unmatched Payments" partition exists. -/
theorem unmatched_settlements_dropped (df : List Txn)
    (advOut : List AdvRow) (trOut : List TRRow) :
    (transform_advance_payment df = .ok advOut →
      advOut.length = (advCharges df).length + 1) ∧
    (transform_temp_receipt df = .ok trOut →
      trOut.length = (trCharges df).length + 1) := by
  constructor
  · intro h
    rw [transform_advance_payment_ok h]
    simp [advRows, matchLoop_length]
  · intro h
    rw [transform_temp_receipt_ok h]
    simp [trRows, matchLoop_length]

/-- C3 counterexample.  The ledger `c3ex` holds one settlement (PAY1, 100)
that matches no charge; the completed run's report holds only the
unmatched charge row and the TOTAL row — PAY1 appears in no cell of the
report, and no "Unmatched Payments" partition exists. -/
theorem unmatched_settlement_dropped_cex :
    transform_advance_payment c3ex
      = .ok
        [{ date := "2025-02-01", voucherNo := "CHG1", companyName := "Acme",
           description := "advance", amount := 50, paymentDate := "",
           paymentVoucherNo := "", paymentAmount := 0, outstanding := 50 },
         { date := "TOTAL", voucherNo := "", companyName := "",
           description := "", amount := 50, paymentDate := "",
           paymentVoucherNo := "", paymentAmount := 0, outstanding := 50 }] ∧
    (advSettlements c3ex).map (·.transNo) = ["PAY1"] := by decide

/-- C4 (amended).  In the advance-payment cleaner every charge row
satisfies `outstanding = amount - payment amount` (the claimed formula),
but the account-payable cleaner computes the Ending Balance with the
opposite sign: every normal row of `transform_account_payable` satisfies
`ending balance = payment amount - amount`, which is `-amount`, not
`amount`, when no settlement is present. -/
theorem ending_balance_formulas (df : List Txn) (advOut : List AdvRow)
    (input : List APTxn) (apOut : List APOut) :
    (transform_advance_payment df = .ok advOut →
      ∀ r ∈ advOut.dropLast, r.outstanding = r.amount - r.paymentAmount) ∧
    (transform_account_payable input = .ok apOut →
      ∀ r, APOut.row r ∈ apOut → r.endingBalance = r.payAmount - r.amount) := by
  constructor
  · intro h r hr
    rw [transform_advance_payment_ok h, dropLast_append_single, advRows] at hr
    obtain ⟨r0, h0, rfl⟩ := List.mem_map.mp hr
    exact advRow_invariant df r0 h0
  · intro h r hr
    rw [transform_account_payable_ok h] at hr
    obtain ⟨m, hm, hpay, hamt, _, _, heb⟩ := ap_row_mem input r hr
    rw [heb, hpay, hamt]
    exact (apAllocRows_spec input m hm).1

/-- C4 counterexample.  The unmatched charge of 100 in `c4ex` is emitted by
`transform_account_payable` with Ending Balance -100, not the full charge
amount 100 the claim requires for a row with no settlement. -/
theorem ending_balance_sign_cex :
    transform_account_payable c4ex = .ok (apReport c4ex) ∧
    (apNormalRows (apReport c4ex)).map
        (fun r => (r.payVoucher, r.amount, r.endingBalance))
      = [(none, 100, -100)] ∧
    (-100 : ℚ) ≠ 100 := by decide

/-- C5 (amended).  The signed-column classifier emits two ordered
subsequences of the input (order preserved), a transaction with both
amount columns zero lands in neither, and the two sequences are disjoint
for rows with at most one positive column — but a row with positive Debit
and positive Credit is placed in both sequences, so they are not disjoint
in general. -/
theorem classifier_split_properties (df : List Txn) :
    ((advCharges df).Sublist df ∧ (advSettlements df).Sublist df ∧
     (trCharges df).Sublist df ∧ (trSettlements df).Sublist df) ∧
    (∀ t ∈ df, t.debit = 0 → t.credit = 0 →
        t ∉ advCharges df ∧ t ∉ advSettlements df ∧
        t ∉ trCharges df ∧ t ∉ trSettlements df) ∧
    (∀ t, t ∈ advCharges df → t ∈ advSettlements df →
        0 < t.debit ∧ 0 < t.credit) := by
  refine ⟨⟨List.filter_sublist df, List.filter_sublist df,
           List.filter_sublist df, List.filter_sublist df⟩, ?_, ?_⟩
  · intro t _ hd hc
    refine ⟨?_, ?_, ?_, ?_⟩ <;>
      simp [advCharges, advSettlements, trCharges, trSettlements,
        List.mem_filter, hd, hc]
  · intro t htc hts
    have h1 := (List.mem_filter.mp htc).2
    have h2 := (List.mem_filter.mp hts).2
    exact ⟨of_decide_eq_true h1, of_decide_eq_true h2⟩

/-- C5 counterexample.  The transaction `c5txn` with Debit = Credit = 5 is
placed in both the charge and the settlement sequence of the
advance-payment classifier: the two sets are not disjoint. -/
theorem classifier_overlap_cex :
    advCharges [c5txn] = [c5txn] ∧ advSettlements [c5txn] = [c5txn] := by
  decide

/-- C6 (amended).  Each completed strict-amount run appends one grand
TOTAL row as the last output row, whose numeric columns are the sums of
the preceding (non-total) rows' columns; the account-payable and
account-receivable cleaners, however, append only per-group subtotal rows
and no grand total row (see the counterexample). -/
theorem total_row_strict_cleaners (df : List Txn)
    (advOut : List AdvRow) (trOut : List TRRow) (orOut : List ORRow) :
    (transform_advance_payment df = .ok advOut →
      advOut = advOut.dropLast ++
        [{ date := "TOTAL", voucherNo := "", companyName := "",
           description := "",
           amount := (advOut.dropLast.map (·.amount)).sum,
           paymentDate := "", paymentVoucherNo := "",
           paymentAmount := (advOut.dropLast.map (·.paymentAmount)).sum,
           outstanding := (advOut.dropLast.map (·.outstanding)).sum }]) ∧
    (transform_temp_receipt df = .ok trOut →
      trOut = trOut.dropLast ++
        [{ trDate := "TOTAL", trVoucher := "", companyName := "",
           trDescription := "",
           trAmount := (trOut.dropLast.map (·.trAmount)).sum,
           paymentDate := "", paymentVoucher := "",
           paymentAmount := (trOut.dropLast.map (·.paymentAmount)).sum,
           outstanding := (trOut.dropLast.map (·.outstanding)).sum }]) ∧
    (transform_other_receivable df = .ok orOut →
      orOut = orOut.dropLast ++
        [{ date := "TOTAL", invNo := "", voucherNo := "", companyName := "",
           description := "", currency := "",
           originalAmount := (orOut.dropLast.map (·.originalAmount)).sum,
           originalRate := none,
           amount := (orOut.dropLast.map (·.amount)).sum,
           paymentDate := "", paymentVoucherNo := "",
           paymentAmount := (orOut.dropLast.map (·.paymentAmount)).sum,
           endingBalance := (orOut.dropLast.map (·.endingBalance)).sum }]) := by
  refine ⟨fun h => ?_, fun h => ?_, fun h => ?_⟩
  · rw [transform_advance_payment_ok h, dropLast_append_single]; rfl
  · rw [transform_temp_receipt_ok h, dropLast_append_single]; rfl
  · rw [transform_other_receivable_ok h, dropLast_append_single]; rfl

/-- C6 counterexample.  On the two-vendor input `c6ex`,
`transform_account_payable` ends with vendor Beta's subtotal row — Amount
200 — while the sum of the Amount column over all normal rows is 300: no
grand Total row is appended as the last output row. -/
theorem ap_no_total_row_cex :
    transform_account_payable c6ex = .ok (apReport c6ex) ∧
    (apReport c6ex).getLast? = some (.subtotal "Beta" 200 200 0 (-200)) ∧
    ((apNormalRows (apReport c6ex)).map (·.amount)).sum = 300 ∧
    (200 : ℚ) ≠ 300 := by decide

/-- C7 (amended).  The expansion step of `transform_account_payable` does
attribute the full settlement Debit to the fragment at position 0 and zero
to every later fragment, but the allocation pass then overwrites the
Payment Amount of every matched row with that row's own Original Amount,
so in the emitted report each matched charge carries its own amount as
Payment Amount (and an unmatched charge carries 0) — not the
first-fragment-only attribution. -/
theorem ap_payment_allocation (p : APTxn) (input : List APTxn)
    (apOut : List APOut) :
    ((expandPayRow p).map (·.payAmount)
      = (List.range ((splitComma (cleanTransNo p.transNo)).length)).map
          (fun i => if i = 0 then p.debit else 0)) ∧
    (transform_account_payable input = .ok apOut →
      ∀ r, APOut.row r ∈ apOut →
        r.payAmount = (if r.payVoucher.isSome then r.origAmount else 0)) := by
  constructor
  · rw [expandPayRow, List.map_map,
      ← List.enum_map_fst (splitComma (cleanTransNo p.transNo)), List.map_map]
    rfl
  · intro h r hr
    rw [transform_account_payable_ok h] at hr
    obtain ⟨m, hm, hpay, _, horig, hv, _⟩ := ap_row_mem input r hr
    rw [hpay, horig, hv]
    exact (apAllocRows_spec input m hm).2

/-- C7 counterexample.  On `c7ex` the single payment of 300 references
INV1 and INV2; the expanded fragments carry [300, 0], but the emitted
report attributes 100 and 200 — each charge's own amount — to the two rows
matched to that payment, so the full amount is not attributed to the first
fragment only. -/
theorem ap_allocation_overwritten_cex :
    transform_account_payable c7ex = .ok (apReport c7ex) ∧
    (apNormalRows (apReport c7ex)).map (fun r => (r.payVoucher, r.payAmount))
      = [(some "INV1, INV2 paid", 100), (some "INV1, INV2 paid", 200)] ∧
    (apExpand (c7ex.filter apIsPayment)).map (·.payAmount) = [300, 0] := by
  decide

/-- C8 (amended).  `generate_voucher_numbers_op` assigns identifiers
`OP-{yy}-{mm}-{seq}` with a per-(year, month) sequence starting at 1, but
it visits rows in frame order without sorting by date, and a row whose
date is unparseable is skipped — its voucher cell stays `None` — rather
than being placed in a "00-00" bucket. -/
theorem voucher_numbers_op_spec (rows : List VRow) :
    ((generate_voucher_numbers_op rows).map (·.date) = rows.map (·.date)) ∧
    (∀ r ∈ generate_voucher_numbers_op rows,
        (r.date = none → r.voucher = none) ∧
        (∀ d, r.date = some d →
          ∃ k, 1 ≤ k ∧ r.voucher = some (opVoucherString d k))) :=
  ⟨genOpAux_dates rows [], fun r hr => genOpAux_voucher rows [] r hr⟩

/-- C8 counterexample.  In `c8rows` the February 5 row sits after the
February 10 row; `generate_voucher_numbers_op` gives the later-dated row
seq 001 and the earlier-dated row seq 002 — sequence numbers follow frame
order, not ascending date order — and the unparseable-date row receives no
voucher at all instead of a "00-00" bucket identifier. -/
theorem voucher_order_cex :
    generate_voucher_numbers_op c8rows
      = [{ date := some ⟨2025, 2, 10⟩, voucher := some "OP-25-02-001" },
         { date := some ⟨2025, 2, 5⟩, voucher := some "OP-25-02-002" },
         { date := none, voucher := none }] := by decide

/-- C9.  When a required column is absent, the column selection the
transforms open with fails with a KeyError (the design's SchemaError)
naming exactly the missing required columns, and no output table is
produced. -/
theorem missing_column_schema_error (t : RawTable)
    (h : missingColumns arRequiredColumns t ≠ []) :
    selectColumns arRequiredColumns t
      = .error (.keyError (missingColumns arRequiredColumns t)) ∧
    (∀ c ∈ missingColumns arRequiredColumns t,
        c ∈ arRequiredColumns ∧ c ∉ t.cols) ∧
    (∀ u, selectColumns arRequiredColumns t ≠ .ok u) := by
  refine ⟨?_, ?_, ?_⟩
  · simp [selectColumns, h]
  · intro c hc
    have hc' := List.mem_filter.mp hc
    refine ⟨hc'.1, ?_⟩
    simpa using hc'.2
  · intro u
    simp [selectColumns, h]

/-- C9 witness: the AR column selection fails on `c9table`, which misses
ten of the twelve required columns. -/
theorem missing_column_schema_error_witness :
    selectColumns arRequiredColumns c9table
      = .error (.keyError (missingColumns arRequiredColumns c9table)) ∧
    (∀ c ∈ missingColumns arRequiredColumns c9table,
        c ∈ arRequiredColumns ∧ c ∉ c9table.cols) ∧
    (∀ u, selectColumns arRequiredColumns c9table ≠ .ok u) :=
  missing_column_schema_error c9table (by decide)

/-- C10 (amended).  `transform_other_payable` never returns a report: for
every input whose required columns are all present it reaches the merge
step, which reads the unbound name `ap_df` (the charge rows were bound to
`op_df`), raising a NameError; an input missing a required column aborts
earlier with a KeyError. -/
theorem other_payable_never_returns (t : RawTable) :
    (∀ u, transform_other_payable t ≠ Except.ok u) ∧
    (missingColumns opRequiredColumns t = [] →
        transform_other_payable t = .error (.nameError "ap_df")) := by
  rw [transform_other_payable, selectColumns]
  by_cases h : missingColumns opRequiredColumns t = [] <;> simp [h]

/-- C10 counterexample.  On a table with no columns at all,
`transform_other_payable` fails with a KeyError naming the required
columns, not with the unbound-name error the claim asserts for every
input (and still returns no report). -/
theorem other_payable_missing_columns_cex :
    transform_other_payable c10table
      = .error (.keyError opRequiredColumns) ∧
    PyStop.keyError opRequiredColumns ≠ PyStop.nameError "ap_df" :=
  ⟨rfl, by decide⟩

end ConcreteEvaluation
